import Mathlib

/-!
Verification of the two computational procedures of the DockerManager
repository:

* `ContainerManager.get_container_stats` (src/docker_manager/container_manager.py,
  lines 352-391): derivation of CPU / memory / network / block-IO usage numbers
  from one docker stats dictionary (which carries the current `cpu_stats` and
  the previous `precpu_stats` snapshot).
* `DeploymentManager.rollback_deployment` and
  `DeploymentManager.get_deployment_history`
  (src/k8s_manager/deployment_manager.py, lines 333-440): revision history
  reconstruction and rollback target selection over ReplicaSet collections.

The embedding models Python dictionaries with optional keys as structures of
`Option` fields, Python float arithmetic as exact rational arithmetic, and
Python exceptions (KeyError / IndexError on dict and list access) as an
`Except` error monad.  Pure dictionary `.get` chains with defaults become
`Option.getD`.
-/

/-- Rounding to the nearest integer, ties to the even integer, as Python
`round` does on floats. -/
def round2Int (y : ℚ) : ℤ :=
  if y - ⌊y⌋ < 1/2 then ⌊y⌋
  else if 1/2 < y - ⌊y⌋ then ⌊y⌋ + 1
  else if ⌊y⌋ % 2 = 0 then ⌊y⌋ else ⌊y⌋ + 1

/-- Python `round(x, 2)` : round to two decimal places, ties going to the even
hundredth.  The claims never exercise an exact tie, where binary floating
point and exact rational arithmetic could part. -/
def round2 (q : ℚ) : ℚ :=
  (round2Int (q * 100) : ℚ) / 100

/-- The `cpu_usage` sub-dictionary of a docker stats snapshot: the code reads
`total_usage` and `percpu_usage` by direct bracket indexing (KeyError when
absent). -/
structure CpuUsage where
  total_usage : Option Int
  percpu_usage : Option (List Int)
deriving DecidableEq

/-- A `cpu_stats` / `precpu_stats` sub-dictionary: the code reads
`cpu_usage` and `system_cpu_usage` by direct bracket indexing. -/
structure CpuStats where
  cpu_usage : Option CpuUsage
  system_cpu_usage : Option Int
deriving DecidableEq

/-- The `memory_stats` sub-dictionary, read with `.get(..., 0)` defaults. -/
structure MemoryStats where
  usage : Option Int
  limit : Option Int
deriving DecidableEq

/-- The `networks.eth0` sub-dictionary, read with `.get(..., 0)` defaults.
The two `.get` levels (`networks` then `eth0`) are collapsed into one
optional field, which is faithful because an absent level defaults to an
empty dictionary. -/
structure NetworkIf where
  rx_bytes : Option Int
  tx_bytes : Option Int
deriving DecidableEq

/-- One entry of `blkio_stats.io_service_bytes_recursive`, read with
`.get(value, 0)`. -/
structure BlkioEntry where
  value : Option Int
deriving DecidableEq

/-- The docker stats dictionary, restricted to the keys
`get_container_stats` reads.  The two `.get` levels of
`blkio_stats.io_service_bytes_recursive` are likewise collapsed into one
optional list. -/
structure DockerStats where
  cpu_stats : Option CpuStats
  precpu_stats : Option CpuStats
  memory_stats : Option MemoryStats
  networks_eth0 : Option NetworkIf
  io_service_bytes_recursive : Option (List BlkioEntry)
deriving DecidableEq

/-- The Python exceptions the statistics computation itself can raise:
`KeyError` from direct dictionary indexing and `IndexError` from indexing an
empty list. -/
inductive PyErr where
  | keyError
  | indexError
deriving DecidableEq

/-- The dictionary returned by `get_container_stats`. -/
structure StatsReport where
  cpu_percent : ℚ
  memory_usage : Int
  memory_limit : Int
  memory_percent : ℚ
  network_rx : Int
  network_tx : Int
  block_read : Int
  block_write : Int
deriving DecidableEq

/-- The CPU block of `get_container_stats`: starts from `cpu_percent = 0.0`,
and only when both `cpu_stats` and `precpu_stats` keys are present computes
`cpu_delta`, `system_delta` and, when `system_delta > 0`,
`(cpu_delta / system_delta) * len(percpu_usage) * 100.0`.  Nested fields are
read by direct indexing, so an absent one is a KeyError; the match order
follows Python evaluation order. -/
def cpuPercentRaw (s : DockerStats) : Except PyErr ℚ :=
  match s.cpu_stats, s.precpu_stats with
  | some cs, some ps =>
    match cs.cpu_usage with
    | none => .error .keyError
    | some cu =>
      match cu.total_usage with
      | none => .error .keyError
      | some ct =>
        match ps.cpu_usage with
        | none => .error .keyError
        | some pu =>
          match pu.total_usage with
          | none => .error .keyError
          | some pt =>
            match cs.system_cpu_usage with
            | none => .error .keyError
            | some csys =>
              match ps.system_cpu_usage with
              | none => .error .keyError
              | some psys =>
                if 0 < csys - psys then
                  match cu.percpu_usage with
                  | none => .error .keyError
                  | some percpu =>
                    .ok (((ct - pt : ℤ) : ℚ) / ((csys - psys : ℤ) : ℚ) *
                      (percpu.length : ℚ) * 100)
                else .ok 0
  | _, _ => .ok 0

/-- Models `stats.get(..).get(..)` for the memory usage entry, default 0. -/
def memoryUsageOf (s : DockerStats) : Int :=
  ((s.memory_stats.getD ⟨none, none⟩).usage).getD 0

/-- Models `stats.get(..).get(..)` for the memory limit entry, default 0. -/
def memoryLimitOf (s : DockerStats) : Int :=
  ((s.memory_stats.getD ⟨none, none⟩).limit).getD 0

/-- Models the conditional expression computing the raw memory percentage:
usage over limit times 100 when the limit is positive, else 0. -/
def memoryPercentOf (s : DockerStats) : ℚ :=
  if 0 < memoryLimitOf s then
    (memoryUsageOf s : ℚ) / (memoryLimitOf s : ℚ) * 100
  else 0

/-- Models the block-read expression: the blkio list, defaulting to a
single empty entry when the key is absent, is indexed at 0 (IndexError on a
present-but-empty list) and its value entry read with default 0. -/
def blockReadOf (s : DockerStats) : Except PyErr Int :=
  match s.io_service_bytes_recursive.getD [⟨none⟩] with
  | [] => .error .indexError
  | e :: _ => .ok (e.value.getD 0)

/-- The `block_write` expression: guarded by
a length test on the blkio list fetched with an empty-list default
(note the `[]` default, so an absent key yields 0), then takes `[-1]` of the
present list.  Under the guard the list is nonempty, so the `none` arm of
`getLast?` is unreachable. -/
def blockWriteOf (s : DockerStats) : Int :=
  match s.io_service_bytes_recursive with
  | none => 0
  | some l =>
    if 1 < l.length then
      match l.getLast? with
      | some e => e.value.getD 0
      | none => 0
    else 0

/-- The computational core of `ContainerManager.get_container_stats`: the CPU
block (which can raise KeyError), the memory block, and the result dictionary
(whose `block_read` entry can raise IndexError).  Both percentages are
rounded with `round(…, 2)`. -/
def getContainerStats (s : DockerStats) : Except PyErr StatsReport :=
  match cpuPercentRaw s with
  | .error e => .error e
  | .ok cpu =>
    match blockReadOf s with
    | .error e => .error e
    | .ok br =>
      .ok
        { cpu_percent := round2 cpu
          memory_usage := memoryUsageOf s
          memory_limit := memoryLimitOf s
          memory_percent := round2 (memoryPercentOf s)
          network_rx := ((s.networks_eth0.getD ⟨none, none⟩).rx_bytes).getD 0
          network_tx := ((s.networks_eth0.getD ⟨none, none⟩).tx_bytes).getD 0
          block_read := br
          block_write := blockWriteOf s }

/-- A stats dictionary with every CPU counter present, a parametrised
`memory_stats` entry, and the remaining keys absent.  `ct`/`pt` are the
current/previous `total_usage`, `csys`/`psys` the current/previous
`system_cpu_usage`, `percpu` the current `percpu_usage` list. -/
def fullStatsMem (ct pt csys psys : Int) (percpu : List Int)
    (ms : Option MemoryStats) : DockerStats :=
  { cpu_stats := some
      { cpu_usage := some { total_usage := some ct, percpu_usage := some percpu }
        system_cpu_usage := some csys }
    precpu_stats := some
      { cpu_usage := some { total_usage := some pt, percpu_usage := none }
        system_cpu_usage := some psys }
    memory_stats := ms
    networks_eth0 := none
    io_service_bytes_recursive := none }

/-- A stats dictionary with every CPU and memory counter present. -/
def fullStats (ct pt csys psys : Int) (percpu : List Int) (mu ml : Int) :
    DockerStats :=
  fullStatsMem ct pt csys psys percpu (some { usage := some mu, limit := some ml })

/-- One ReplicaSet of the collection handled by `rollback_deployment` and
`get_deployment_history`.  `annot` is the value of the
`deployment.kubernetes.io/revision` metadata entry, already parsed with
`int(...)`; `none` models an absent entry, for which both procedures use the
string default value 0, hence revision 0.  `id` abstracts the rest of the
record (pod template, change cause, timestamps, replica counts, image),
which both procedures copy through untouched. -/
structure ReplicaSet where
  id : Nat
  annot : Option Int
deriving DecidableEq

/-- Models the parsed revision of a record: the annotation value when
present, else the parsed default, 0. -/
def revOf (rs : ReplicaSet) : Int :=
  rs.annot.getD 0

/-- Python `sorted(l, key=key, reverse=True)`: a stable sort into
non-increasing key order, realised as insertion sort with the reflexive
descending comparison (so an element is inserted before exactly the elements
with strictly smaller key that follow the elements with greater-or-equal
key, preserving input order between equal keys). -/
def sortDesc (key : α → Int) (l : List α) : List α :=
  List.insertionSort (fun a b => key b ≤ key a) l

/-- The failure modes of `rollback_deployment` before any cluster mutation:
both are raised as `K8sDeploymentError`; `noReplicaSet` carries the message
about a missing ReplicaSet collection, `noTarget` the single generic message
used when no target revision was resolved. -/
inductive RollbackErr where
  | noReplicaSet
  | noTarget
deriving DecidableEq

/-- Python truthiness of the `revision: Optional[int]` argument, as tested
by `if revision:` — `None` and `0` are falsy. -/
def pyTruthy : Option Int → Bool
  | none => false
  | some n => n != 0

/-- The selection logic of `DeploymentManager.rollback_deployment` (lines
354-376): fail when the ReplicaSet collection is empty; sort descending by
revision; when `revision` is truthy scan the sorted collection for the first
record with that revision, otherwise take index 1 when it exists; fail with
the generic target-not-found error when nothing was selected. -/
def selectRollbackTarget (items : List ReplicaSet) (revision : Option Int) :
    Except RollbackErr ReplicaSet :=
  if items = [] then .error .noReplicaSet
  else
    match
      (if pyTruthy revision then
        (sortDesc revOf items).find? (fun rs => revOf rs == revision.getD 0)
      else
        (sortDesc revOf items)[1]?) with
    | some rs => .ok rs
    | none => .error .noTarget

/-- One entry of the list returned by `get_deployment_history`:
`revision` is the parsed annotation value and `id` abstracts the remaining
entries (`change_cause`, `creation_timestamp`, `replicas`, `ready_replicas`,
`image`) copied from the record. -/
structure HistoryEntry where
  revision : Int
  id : Nat
deriving DecidableEq

/-- The dictionary `get_deployment_history` builds for one ReplicaSet. -/
def toHistoryEntry (rs : ReplicaSet) : HistoryEntry :=
  { revision := revOf rs, id := rs.id }

/-- The computational core of `DeploymentManager.get_deployment_history`
(lines 417-434): build one entry per record in input order, then
sort the entries by their revision, descending and stable. -/
def buildHistory (items : List ReplicaSet) : List HistoryEntry :=
  sortDesc (fun e => e.revision) (items.map toHistoryEntry)

theorem sortDesc_perm (key : α → Int) (l : List α) : List.Perm (sortDesc key l) l :=
  List.perm_insertionSort _ l

theorem sortDesc_sorted (key : α → Int) (l : List α) :
    (sortDesc key l).Pairwise (fun a b => key b ≤ key a) := by
  haveI : IsTotal α (fun a b => key b ≤ key a) := ⟨fun a b => le_total (key b) (key a)⟩
  haveI : IsTrans α (fun a b => key b ≤ key a) := ⟨fun _ _ _ hab hbc => le_trans hbc hab⟩
  exact List.sorted_insertionSort _ l

theorem filter_orderedInsert_key (key : α → Int) (k : Int) (x : α) (l : List α) :
    (List.orderedInsert (fun a b => key b ≤ key a) x l).filter (fun y => key y == k)
      = if key x == k
        then x :: l.filter (fun y => key y == k)
        else l.filter (fun y => key y == k) := by
  induction l with
  | nil =>
    by_cases hx : key x = k <;> simp [List.orderedInsert, List.filter_cons, hx]
  | cons y ys ih =>
    have hcons : List.orderedInsert (fun a b => key b ≤ key a) x (y :: ys)
        = if key y ≤ key x then x :: y :: ys
          else y :: List.orderedInsert (fun a b => key b ≤ key a) x ys := rfl
    by_cases hxy : key y ≤ key x
    · rw [hcons, if_pos hxy]
      simp [List.filter_cons]
    · rw [hcons, if_neg hxy, List.filter_cons, ih]
      by_cases hx : key x = k
      · have hy : ¬ (key y = k) := fun hyk => hxy (le_of_eq (hyk.trans hx.symm))
        simp [List.filter_cons, hx, hy]
      · simp [List.filter_cons, hx]

theorem filter_sortDesc (key : α → Int) (k : Int) (l : List α) :
    (sortDesc key l).filter (fun y => key y == k) = l.filter (fun y => key y == k) := by
  induction l with
  | nil => rfl
  | cons x xs ih =>
    have hx : sortDesc key (x :: xs)
        = List.orderedInsert (fun a b => key b ≤ key a) x (sortDesc key xs) := rfl
    rw [hx, filter_orderedInsert_key, List.filter_cons, ih]

theorem cpuPercentRaw_fullStatsMem (ct pt csys psys : Int) (percpu : List Int)
    (ms : Option MemoryStats) :
    cpuPercentRaw (fullStatsMem ct pt csys psys percpu ms)
      = if 0 < csys - psys
        then .ok (((ct - pt : ℤ) : ℚ) / ((csys - psys : ℤ) : ℚ) * (percpu.length : ℚ) * 100)
        else .ok 0 := rfl

theorem blockReadOf_fullStatsMem (ct pt csys psys : Int) (percpu : List Int)
    (ms : Option MemoryStats) :
    blockReadOf (fullStatsMem ct pt csys psys percpu ms) = .ok 0 := rfl

theorem getContainerStats_ok (s : DockerStats) (q : ℚ) (br : Int)
    (hq : cpuPercentRaw s = .ok q) (hb : blockReadOf s = .ok br) :
    getContainerStats s = .ok
      { cpu_percent := round2 q
        memory_usage := memoryUsageOf s
        memory_limit := memoryLimitOf s
        memory_percent := round2 (memoryPercentOf s)
        network_rx := ((s.networks_eth0.getD ⟨none, none⟩).rx_bytes).getD 0
        network_tx := ((s.networks_eth0.getD ⟨none, none⟩).tx_bytes).getD 0
        block_read := br
        block_write := blockWriteOf s } := by
  unfold getContainerStats
  rw [hq, hb]

theorem round2Int_intCast (n : ℤ) : round2Int (n : ℚ) = n := by
  unfold round2Int
  rw [Int.floor_intCast]
  norm_num

theorem round2_intCast (n : ℤ) : round2 (n : ℚ) = (n : ℚ) := by
  unfold round2
  have h1 : (n : ℚ) * 100 = ((n * 100 : ℤ) : ℚ) := by push_cast; ring
  rw [h1, round2Int_intCast]
  push_cast
  field_simp

theorem round2Int_nonpos {y : ℚ} (hy : y ≤ 0) : round2Int y ≤ 0 := by
  unfold round2Int
  have hf : (⌊y⌋ : ℚ) ≤ y := Int.floor_le y
  have hf0 : ⌊y⌋ ≤ 0 := by
    have h := Int.floor_le_floor (α := ℚ) hy
    simpa using h
  split_ifs with h1 h2 h3
  · exact hf0
  · have hq : (⌊y⌋ : ℚ) < -(1/2) := by linarith
    have hz : ⌊y⌋ < 0 := by
      by_contra hc
      push_neg at hc
      have : (0 : ℚ) ≤ (⌊y⌋ : ℚ) := by exact_mod_cast hc
      linarith
    omega
  · exact hf0
  · have h1' : (1 : ℚ)/2 ≤ y - ⌊y⌋ := le_of_not_lt h1
    have hq : (⌊y⌋ : ℚ) ≤ -(1/2) := by linarith
    have hz : ⌊y⌋ < 0 := by
      by_contra hc
      push_neg at hc
      have : (0 : ℚ) ≤ (⌊y⌋ : ℚ) := by exact_mod_cast hc
      linarith
    omega

theorem round2_nonpos {q : ℚ} (hq : q ≤ 0) : round2 q ≤ 0 := by
  unfold round2
  have h1 : q * 100 ≤ 0 :=
    mul_nonpos_iff.mpr (Or.inr ⟨hq, by norm_num⟩)
  have h2 : round2Int (q * 100) ≤ 0 := round2Int_nonpos h1
  have h3 : ((round2Int (q * 100) : ℤ) : ℚ) ≤ 0 := by exact_mod_cast h2
  exact div_nonpos_iff.mpr (Or.inr ⟨h3, by norm_num⟩)

theorem pyTruthy_some {n : Int} (hn : n ≠ 0) : pyTruthy (some n) = true := by
  simp [pyTruthy, hn]

theorem selectRollbackTarget_of_ne (items : List ReplicaSet) (revision : Option Int)
    (h : items ≠ []) :
    selectRollbackTarget items revision =
      match
        (if pyTruthy revision then
          (sortDesc revOf items).find? (fun rs => revOf rs == revision.getD 0)
        else
          (sortDesc revOf items)[1]?) with
      | some rs => .ok rs
      | none => .error .noTarget := by
  unfold selectRollbackTarget
  rw [if_neg h]

theorem round2_zero : round2 0 = 0 := by
  simpa using round2_intCast 0

theorem cpuPercentRaw_fullStatsMem_isOk (ct pt csys psys : Int) (percpu : List Int)
    (ms : Option MemoryStats) :
    ∃ q, cpuPercentRaw (fullStatsMem ct pt csys psys percpu ms) = .ok q := by
  rw [cpuPercentRaw_fullStatsMem]
  by_cases h : 0 < csys - psys
  · exact ⟨_, if_pos h⟩
  · exact ⟨_, if_neg h⟩

theorem getContainerStats_fullStats_cpu (ct pt csys psys : Int) (percpu : List Int)
    (mu ml : Int) (h : 0 < csys - psys) :
    (getContainerStats (fullStats ct pt csys psys percpu mu ml)).map
        StatsReport.cpu_percent
      = .ok (round2 (((ct - pt : ℤ) : ℚ) / ((csys - psys : ℤ) : ℚ) *
          (percpu.length : ℚ) * 100)) := by
  have hq : cpuPercentRaw (fullStats ct pt csys psys percpu mu ml)
      = .ok (((ct - pt : ℤ) : ℚ) / ((csys - psys : ℤ) : ℚ) * (percpu.length : ℚ) * 100) := by
    rw [fullStats, cpuPercentRaw_fullStatsMem, if_pos h]
  rw [fullStats] at hq ⊢
  rw [getContainerStats_ok _ _ 0 hq (blockReadOf_fullStatsMem _ _ _ _ _ _)]
  rfl

/-- C1: for every snapshot pair with `system_delta > 0` the reported
`cpu_percent` is `(cpu_delta / system_delta) * core_count * 100` rounded to
two decimal places, the core count being the length of the current
`percpu_usage` list; and on the concrete snapshot pair
`previous = (total 1000, system 10000)`,
`current = (total 1500, system 10500, 2 cores, memory 512 of 1024)` the
report has `cpu_percent = 200` and `memory_percent = 50`. -/
theorem C1_cpu_percent_formula (ct pt csys psys : Int) (percpu : List Int)
    (mu ml : Int) (h : 0 < csys - psys) :
    (getContainerStats (fullStats ct pt csys psys percpu mu ml)).map
        StatsReport.cpu_percent
      = .ok (round2 (((ct - pt : ℤ) : ℚ) / ((csys - psys : ℤ) : ℚ) *
          (percpu.length : ℚ) * 100))
    ∧ (getContainerStats (fullStats 1500 1000 10500 10000 [0, 0] 512 1024)).map
        (fun r => (r.cpu_percent, r.memory_percent)) = .ok ((200 : ℚ), (50 : ℚ)) := by
  constructor
  · exact getContainerStats_fullStats_cpu ct pt csys psys percpu mu ml h
  · have hq : cpuPercentRaw (fullStats 1500 1000 10500 10000 [0, 0] 512 1024)
        = .ok (200 : ℚ) := by
      rw [fullStats, cpuPercentRaw_fullStatsMem]
      norm_num
    rw [fullStats] at hq ⊢
    rw [getContainerStats_ok _ _ 0 hq (blockReadOf_fullStatsMem _ _ _ _ _ _)]
    have hm : memoryPercentOf (fullStatsMem 1500 1000 10500 10000 [0, 0]
        (some { usage := some 512, limit := some 1024 })) = 50 := by
      simp only [memoryPercentOf, memoryUsageOf, memoryLimitOf, fullStatsMem,
        Option.getD_some]
      norm_num
    rw [hm]
    have h200 : (200 : ℚ) = ((200 : ℤ) : ℚ) := by norm_num
    have h50 : (50 : ℚ) = ((50 : ℤ) : ℚ) := by norm_num
    rw [h200, h50, round2_intCast, round2_intCast]
    rfl

/-- Witness for C1 at the concrete snapshot pair of the spec. -/
theorem C1_cpu_percent_formula_witness :
    (getContainerStats (fullStats 1500 1000 10500 10000 [0, 0] 512 1024)).map
        StatsReport.cpu_percent
      = .ok (round2 (((1500 - 1000 : ℤ) : ℚ) / ((10500 - 10000 : ℤ) : ℚ) *
          (([0, 0] : List Int).length : ℚ) * 100)) :=
  (C1_cpu_percent_formula 1500 1000 10500 10000 [0, 0] 512 1024 (by norm_num)).1

/-- C8: whenever `system_delta ≤ 0` the reported `cpu_percent` is 0,
whatever the CPU delta. -/
theorem C8_zero_system_delta (ct pt csys psys : Int) (percpu : List Int)
    (mu ml : Int) (h : csys - psys ≤ 0) :
    (getContainerStats (fullStats ct pt csys psys percpu mu ml)).map
      StatsReport.cpu_percent = .ok 0 := by
  have hq : cpuPercentRaw (fullStats ct pt csys psys percpu mu ml) = .ok 0 := by
    rw [fullStats, cpuPercentRaw_fullStatsMem, if_neg (not_lt.mpr h)]
  rw [fullStats] at hq ⊢
  rw [getContainerStats_ok _ _ 0 hq (blockReadOf_fullStatsMem _ _ _ _ _ _)]
  rw [round2_zero]
  rfl

/-- Witness for C8: equal system counters and a large CPU delta still give 0. -/
theorem C8_zero_system_delta_witness :
    (getContainerStats (fullStats 99999 0 10500 10500 [0, 0] 512 1024)).map
      StatsReport.cpu_percent = .ok 0 :=
  C8_zero_system_delta 99999 0 10500 10500 [0, 0] 512 1024 (by norm_num)

/-- C9: a memory limit of 0, or an absent `memory_stats` dictionary, reports
`memory_percent = 0` whatever the memory usage, with no division error. -/
theorem C9_zero_memory_limit (ct pt csys psys : Int) (percpu : List Int) (mu : Int) :
    (getContainerStats (fullStats ct pt csys psys percpu mu 0)).map
      StatsReport.memory_percent = .ok 0
    ∧ (getContainerStats (fullStatsMem ct pt csys psys percpu none)).map
      StatsReport.memory_percent = .ok 0 := by
  constructor
  · obtain ⟨q, hq⟩ := cpuPercentRaw_fullStatsMem_isOk ct pt csys psys percpu
      (some { usage := some mu, limit := some 0 })
    rw [fullStats]
    rw [getContainerStats_ok _ _ 0 hq (blockReadOf_fullStatsMem _ _ _ _ _ _)]
    have hm : memoryPercentOf (fullStatsMem ct pt csys psys percpu
        (some { usage := some mu, limit := some 0 })) = 0 := rfl
    rw [hm, round2_zero]
    rfl
  · obtain ⟨q, hq⟩ := cpuPercentRaw_fullStatsMem_isOk ct pt csys psys percpu none
    rw [getContainerStats_ok _ _ 0 hq (blockReadOf_fullStatsMem _ _ _ _ _ _)]
    have hm : memoryPercentOf (fullStatsMem ct pt csys psys percpu none) = 0 := rfl
    rw [hm, round2_zero]
    rfl

/-- Counterexample to C3: with the previous CPU counter 1500, the current one
1000 (delta -500) and a positive system delta of 500 on one core, the code
reports `cpu_percent = -100`, a negative value, not the claimed clamp to 0. -/
theorem C3_counterexample :
    (getContainerStats (fullStats 1000 1500 10500 10000 [0] 0 0)).map
      StatsReport.cpu_percent = .ok (-100)
    ∧ ((-100 : ℚ) ≠ 0) := by
  constructor
  · have hq : cpuPercentRaw (fullStats 1000 1500 10500 10000 [0] 0 0)
        = .ok (-100 : ℚ) := by
      rw [fullStats, cpuPercentRaw_fullStatsMem]
      norm_num
    rw [fullStats] at hq ⊢
    rw [getContainerStats_ok _ _ 0 hq (blockReadOf_fullStatsMem _ _ _ _ _ _)]
    have h100 : (-100 : ℚ) = ((-100 : ℤ) : ℚ) := by norm_num
    rw [h100, round2_intCast]
    rfl
  · norm_num

/-- C3 amended: with `system_delta > 0` and a negative `cpu_delta` the code
does not clamp: it reports the rounding of the true negative product
`(cpu_delta / system_delta) * core_count * 100`, a value that is at most 0
and in general strictly negative (see the counterexample, where it is
-100). -/
theorem C3_amended_negative_delta (ct pt csys psys : Int) (percpu : List Int)
    (mu ml : Int) (hs : 0 < csys - psys) (hd : ct - pt < 0) :
    (getContainerStats (fullStats ct pt csys psys percpu mu ml)).map
        StatsReport.cpu_percent
      = .ok (round2 (((ct - pt : ℤ) : ℚ) / ((csys - psys : ℤ) : ℚ) *
          (percpu.length : ℚ) * 100))
    ∧ round2 (((ct - pt : ℤ) : ℚ) / ((csys - psys : ℤ) : ℚ) *
        (percpu.length : ℚ) * 100) ≤ 0 := by
  constructor
  · exact getContainerStats_fullStats_cpu ct pt csys psys percpu mu ml hs
  · apply round2_nonpos
    have hdq : ((ct - pt : ℤ) : ℚ) ≤ 0 := by exact_mod_cast le_of_lt hd
    have hsq : (0 : ℚ) ≤ ((csys - psys : ℤ) : ℚ) := by exact_mod_cast le_of_lt hs
    have h1 : ((ct - pt : ℤ) : ℚ) / ((csys - psys : ℤ) : ℚ) ≤ 0 :=
      div_nonpos_iff.mpr (Or.inr ⟨hdq, hsq⟩)
    have h2 : ((ct - pt : ℤ) : ℚ) / ((csys - psys : ℤ) : ℚ) * (percpu.length : ℚ) ≤ 0 :=
      mul_nonpos_iff.mpr (Or.inr ⟨h1, by positivity⟩)
    exact mul_nonpos_iff.mpr (Or.inr ⟨h2, by norm_num⟩)

/-- Witness for the amended C3 at the counterexample input. -/
theorem C3_amended_negative_delta_witness :
    (getContainerStats (fullStats 1000 1500 10500 10000 [0] 0 0)).map
        StatsReport.cpu_percent
      = .ok (round2 (((1000 - 1500 : ℤ) : ℚ) / ((10500 - 10000 : ℤ) : ℚ) *
          (([0] : List Int).length : ℚ) * 100))
    ∧ round2 (((1000 - 1500 : ℤ) : ℚ) / ((10500 - 10000 : ℤ) : ℚ) *
        (([0] : List Int).length : ℚ) * 100) ≤ 0 :=
  C3_amended_negative_delta 1000 1500 10500 10000 [0] 0 0 (by norm_num) (by norm_num)

/-- Counterexample to C4: a stats dictionary that has both `cpu_stats` and
`precpu_stats` but no nested `cpu_usage` dictionaries makes the computation
raise `KeyError` instead of degrading to 0. -/
theorem C4_counterexample :
    getContainerStats
      { cpu_stats := some { cpu_usage := none, system_cpu_usage := some 0 }
        precpu_stats := some { cpu_usage := none, system_cpu_usage := some 0 }
        memory_stats := none
        networks_eth0 := none
        io_service_bytes_recursive := none } = .error .keyError := rfl

theorem cpuPercentRaw_absent (s : DockerStats)
    (h : s.cpu_stats = none ∨ s.precpu_stats = none) :
    cpuPercentRaw s = .ok 0 := by
  obtain ⟨cs, ps, ms, nw, io⟩ := s
  rcases h with h | h
  · simp only at h
    subst h
    cases ps <;> rfl
  · simp only at h
    subst h
    cases cs <;> rfl

/-- C4 amended: the computation is total, with the CPU percentage degrading
to 0, whenever the top-level `cpu_stats` or `precpu_stats` key is absent and
the blkio list is not present-and-empty; a present-but-empty blkio list makes
it raise IndexError instead; and on a dictionary with every optional key
absent the memory, network and blkio figures all default to 0, giving the
all-zero report.  It is not total in general: with both top-level CPU keys
present, a missing nested counter field raises KeyError (see the
counterexample). -/
theorem C4_amended_totality (s : DockerStats) :
    (s.cpu_stats = none ∨ s.precpu_stats = none →
      s.io_service_bytes_recursive ≠ some [] →
      ∃ r, getContainerStats s = .ok r ∧ r.cpu_percent = 0)
    ∧ (s.cpu_stats = none ∨ s.precpu_stats = none →
      s.io_service_bytes_recursive = some [] →
      getContainerStats s = .error .indexError)
    ∧ (s.cpu_stats = none → s.memory_stats = none → s.networks_eth0 = none →
      s.io_service_bytes_recursive = none →
      getContainerStats s = .ok
        { cpu_percent := 0, memory_usage := 0, memory_limit := 0
          memory_percent := 0, network_rx := 0, network_tx := 0
          block_read := 0, block_write := 0 }) := by
  refine ⟨?_, ?_, ?_⟩
  · intro h h2
    have hq : cpuPercentRaw s = .ok 0 := cpuPercentRaw_absent s h
    have hb : ∃ br, blockReadOf s = .ok br := by
      rcases hio : s.io_service_bytes_recursive with _ | l
      · refine ⟨0, ?_⟩
        unfold blockReadOf
        rw [hio]
        rfl
      · cases l with
        | nil => exact absurd hio h2
        | cons e t =>
          refine ⟨e.value.getD 0, ?_⟩
          unfold blockReadOf
          rw [hio]
          rfl
    obtain ⟨br, hb⟩ := hb
    exact ⟨_, getContainerStats_ok _ _ br hq hb, round2_zero⟩
  · intro h hio
    have hq : cpuPercentRaw s = .ok 0 := cpuPercentRaw_absent s h
    have hb : blockReadOf s = .error .indexError := by
      unfold blockReadOf
      rw [hio]
      rfl
    unfold getContainerStats
    rw [hq, hb]
  · intro h1 hm hn hio
    have hq : cpuPercentRaw s = .ok 0 := cpuPercentRaw_absent s (Or.inl h1)
    have hb : blockReadOf s = .ok 0 := by
      unfold blockReadOf
      rw [hio]
      rfl
    rw [getContainerStats_ok s 0 0 hq hb]
    have hmu : memoryUsageOf s = 0 := by
      unfold memoryUsageOf
      rw [hm]
      rfl
    have hml : memoryLimitOf s = 0 := by
      unfold memoryLimitOf
      rw [hm]
      rfl
    have hmp : memoryPercentOf s = 0 := by
      unfold memoryPercentOf
      rw [hml]
      norm_num
    have hbw : blockWriteOf s = 0 := by
      unfold blockWriteOf
      rw [hio]
    rw [hmu, hml, hmp, round2_zero, hn, hbw]
    rfl

/-- Witness for the amended C4: the all-absent stats dictionary gives the
all-zero report, and the same dictionary with an empty blkio list raises
IndexError. -/
theorem C4_amended_totality_witness :
    getContainerStats ⟨none, none, none, none, none⟩ = .ok
      { cpu_percent := 0, memory_usage := 0, memory_limit := 0
        memory_percent := 0, network_rx := 0, network_tx := 0
        block_read := 0, block_write := 0 }
    ∧ getContainerStats ⟨none, none, none, none, some []⟩ = .error .indexError :=
  ⟨(C4_amended_totality ⟨none, none, none, none, none⟩).2.2 rfl rfl rfl rfl,
   (C4_amended_totality ⟨none, none, none, none, some []⟩).2.1 (Or.inl rfl) rfl⟩

theorem select_truthy (items : List ReplicaSet) (n : Int) (hn : n ≠ 0)
    (hne : items ≠ []) :
    selectRollbackTarget items (some n)
      = (match (sortDesc revOf items).find? (fun rs => revOf rs == n) with
         | some rs => Except.ok rs
         | none => Except.error RollbackErr.noTarget) := by
  rw [selectRollbackTarget_of_ne items (some n) hne]
  simp [pyTruthy_some hn]

theorem select_explicit_not_found (items : List ReplicaSet) (n : Int)
    (hne : items ≠ []) (hn : n ≠ 0) (hall : ∀ rs ∈ items, revOf rs ≠ n) :
    selectRollbackTarget items (some n) = .error .noTarget := by
  rw [select_truthy items n hn hne]
  have hfind : (sortDesc revOf items).find? (fun rs => revOf rs == n) = none := by
    rw [List.find?_eq_none]
    intro x hx
    have hxm : x ∈ items := (sortDesc_perm revOf items).mem_iff.mp hx
    simpa using hall x hxm
  rw [hfind]

theorem select_singleton (items : List ReplicaSet) (h1 : items.length = 1) :
    selectRollbackTarget items none = .error .noTarget := by
  match items, h1 with
  | [x], _ => rfl

/-- C5: the history is the whole input collection (as history entries),
stably sorted by revision in non-increasing order: the output is pairwise
non-increasing, a permutation of the input entries, entries of equal
revision keep their relative input order, the empty collection yields the
empty history and a singleton yields exactly its entry. -/
theorem C5_build_history (items : List ReplicaSet) (k : Int) (r : ReplicaSet) :
    (buildHistory items).Pairwise (fun a b => b.revision ≤ a.revision)
    ∧ List.Perm (buildHistory items) (items.map toHistoryEntry)
    ∧ (buildHistory items).filter (fun e => e.revision == k)
        = (items.map toHistoryEntry).filter (fun e => e.revision == k)
    ∧ buildHistory [] = []
    ∧ buildHistory [r] = [toHistoryEntry r] := by
  refine ⟨?_, ?_, ?_, rfl, rfl⟩
  · exact sortDesc_sorted (fun e => e.revision) (items.map toHistoryEntry)
  · exact sortDesc_perm _ _
  · exact filter_sortDesc _ k _

/-- C6: with no explicit revision, a collection of at least two records
rolls back to index 1 of the descending-sorted sequence (on revisions 3 and
1 that is the revision-1 record); a single record gives the target-not-found
error and the empty collection the no-ReplicaSet error. -/
theorem C6_implicit_previous (items : List ReplicaSet) :
    (items.length = 1 → selectRollbackTarget items none = .error .noTarget)
    ∧ (2 ≤ items.length → ∃ rs, selectRollbackTarget items none = .ok rs
        ∧ (sortDesc revOf items)[1]? = some rs)
    ∧ (items = [] → selectRollbackTarget items none = .error .noReplicaSet)
    ∧ selectRollbackTarget [⟨0, some 3⟩, ⟨1, some 1⟩] none = .ok ⟨1, some 1⟩ := by
  refine ⟨select_singleton items, ?_, ?_, rfl⟩
  · intro h2
    have hne : items ≠ [] := by
      intro he
      subst he
      simp at h2
    have hlen : (sortDesc revOf items).length = items.length :=
      (sortDesc_perm revOf items).length_eq
    have hl1 : 1 < (sortDesc revOf items).length := by omega
    refine ⟨(sortDesc revOf items)[1], ?_, List.getElem?_eq_getElem hl1⟩
    rw [selectRollbackTarget_of_ne items none hne]
    have hget := List.getElem?_eq_getElem hl1
    simp [pyTruthy, hget]
  · rintro rfl
    rfl

/-- Witness for C6 on a singleton collection. -/
theorem C6_implicit_previous_witness :
    selectRollbackTarget [⟨7, some 4⟩] none = .error .noTarget :=
  (C6_implicit_previous [⟨7, some 4⟩]).1 rfl

/-- Counterexample to C2: on records with revisions 3 and 1 and the explicit
target revision 0, the code does not fail with a revision-not-found error:
`if revision:` treats 0 as falsy, falls back to the implicit previous-version
policy, and returns the revision-1 record. -/
theorem C2_counterexample :
    selectRollbackTarget [⟨0, some 3⟩, ⟨1, some 1⟩] (some 0) = .ok ⟨1, some 1⟩ := rfl

/-- C2 amended: for every explicitly specified nonzero target revision, the
resolver scans the descending-sorted records for the first record of that
revision — so a successful result has the requested revision and belongs to
the collection — and fails with the (generic) target-not-found error when no
record matches; target revision 0 instead falls back to the implicit
previous-version policy. -/
theorem C2_amended_nonzero_target (items : List ReplicaSet) (n : Int)
    (hn : n ≠ 0) (hne : items ≠ []) :
    ((∀ rs ∈ items, revOf rs ≠ n) →
      selectRollbackTarget items (some n) = .error .noTarget)
    ∧ (∀ rs, selectRollbackTarget items (some n) = .ok rs →
        revOf rs = n ∧ rs ∈ items)
    ∧ selectRollbackTarget items (some n)
        = (match (sortDesc revOf items).find? (fun rs => revOf rs == n) with
           | some rs => Except.ok rs
           | none => Except.error RollbackErr.noTarget) := by
  refine ⟨select_explicit_not_found items n hne hn, ?_, select_truthy items n hn hne⟩
  intro rs hrs
  rw [select_truthy items n hn hne] at hrs
  cases hfind : (sortDesc revOf items).find? (fun rs => revOf rs == n) with
  | none =>
    rw [hfind] at hrs
    simp at hrs
  | some rs0 =>
    rw [hfind] at hrs
    simp only [Except.ok.injEq] at hrs
    subst hrs
    constructor
    · have := List.find?_some hfind
      simpa using this
    · exact (sortDesc_perm revOf items).mem_iff.mp (List.mem_of_find?_eq_some hfind)

/-- Witness for the amended C2: requesting the absent revision 5 fails with
the target-not-found error. -/
theorem C2_amended_nonzero_target_witness :
    selectRollbackTarget [⟨0, some 3⟩] (some 5) = .error .noTarget :=
  (C2_amended_nonzero_target [⟨0, some 3⟩] 5 (by norm_num) (by simp)).1 (by decide)

/-- Counterexample to C7: an explicitly requested absent revision and an
implicit rollback on a single-record collection produce the very same error
value, so a caller cannot discriminate the two failure modes (only the
empty-collection error is distinct). -/
theorem C7_counterexample :
    selectRollbackTarget [⟨0, some 4⟩] (some 9) = .error .noTarget
    ∧ selectRollbackTarget [⟨0, some 4⟩] none = .error .noTarget
    ∧ selectRollbackTarget ([] : List ReplicaSet) (some 9) = .error .noReplicaSet :=
  ⟨rfl, rfl, rfl⟩

/-- C7 amended: the resolver never crashes and never substitutes a default
record: the empty collection gives exactly the distinct no-ReplicaSet error;
but an absent explicitly-requested (nonzero) revision and an implicit
rollback over a single record both give the same generic target-not-found
error, so those two failure modes are not discriminable. -/
theorem C7_amended_error_modes (items : List ReplicaSet) (rev : Option Int) (n : Int) :
    (selectRollbackTarget items rev = .error .noReplicaSet ↔ items = [])
    ∧ (items ≠ [] → n ≠ 0 → (∀ rs ∈ items, revOf rs ≠ n) →
        selectRollbackTarget items (some n) = .error .noTarget)
    ∧ (items.length = 1 → selectRollbackTarget items none = .error .noTarget) := by
  refine ⟨⟨?_, ?_⟩, ?_, select_singleton items⟩
  · intro h
    by_contra hne
    rw [selectRollbackTarget_of_ne items rev hne] at h
    split at h
    · simp at h
    · simp at h
  · rintro rfl
    rfl
  · intro hne hn hall
    exact select_explicit_not_found items n hne hn hall

/-- Witness for the amended C7. -/
theorem C7_amended_error_modes_witness :
    selectRollbackTarget ([] : List ReplicaSet) none = .error .noReplicaSet
    ∧ selectRollbackTarget [⟨2, some 7⟩] (some 3) = .error .noTarget :=
  ⟨((C7_amended_error_modes [] none 3).1).mpr rfl,
   (C7_amended_error_modes [⟨2, some 7⟩] none 3).2.1 (by simp) (by norm_num) (by decide)⟩

/-- Counterexample to C10: a record without the revision annotation does not
sort after every annotated record — here it stays in front of a record
annotated with revision 0, because both parse to revision 0 and the sort is
stable. -/
theorem C10_counterexample :
    sortDesc revOf [⟨0, none⟩, ⟨1, some 0⟩] = [⟨0, none⟩, ⟨1, some 0⟩]
    ∧ (⟨0, none⟩ : ReplicaSet).annot = none
    ∧ (⟨1, some 0⟩ : ReplicaSet).annot ≠ none := by
  refine ⟨rfl, rfl, by simp⟩

/-- C10 amended: a record with an absent revision annotation is treated as
revision 0: in the descending sort it comes after every record whose
annotation parses to a positive revision, the history builder reports it
with revision 0, and an explicit nonzero target request can never select it
(while a target request of 0 falls back to the implicit policy). -/
theorem C10_amended_unannotated (items : List ReplicaSet) (n : Int) :
    (sortDesc revOf items).Pairwise (fun x y => 0 < revOf y → x.annot ≠ none)
    ∧ (∀ rs : ReplicaSet, rs.annot = none → (toHistoryEntry rs).revision = 0)
    ∧ (∀ rs, n ≠ 0 → selectRollbackTarget items (some n) = .ok rs →
        rs.annot = some n) := by
  refine ⟨?_, ?_, ?_⟩
  · refine (sortDesc_sorted revOf items).imp ?_
    intro a b hab hpos hnone
    have ha0 : revOf a = 0 := by
      rw [revOf, hnone]
      rfl
    rw [ha0] at hab
    omega
  · intro rs h
    simp [toHistoryEntry, revOf, h]
  · intro rs hn hsel
    have hne : items ≠ [] := by
      intro he
      subst he
      simp [selectRollbackTarget] at hsel
    rw [select_truthy items n hn hne] at hsel
    cases hfind : (sortDesc revOf items).find? (fun rs => revOf rs == n) with
    | none =>
      rw [hfind] at hsel
      simp at hsel
    | some rs0 =>
      rw [hfind] at hsel
      simp only [Except.ok.injEq] at hsel
      subst hsel
      have hrev : revOf rs0 = n := by
        have := List.find?_some hfind
        simpa using this
      cases ha : rs0.annot with
      | none =>
        rw [revOf, ha] at hrev
        simp at hrev
        exact absurd hrev.symm hn
      | some m =>
        rw [revOf, ha] at hrev
        simp at hrev
        rw [hrev]

/-- Witness for the amended C10. -/
theorem C10_amended_unannotated_witness :
    (toHistoryEntry ⟨5, none⟩).revision = 0
    ∧ (⟨3, (some 2 : Option Int)⟩ : ReplicaSet).annot = some 2 :=
  ⟨(C10_amended_unannotated [] 1).2.1 ⟨5, none⟩ rfl,
   (C10_amended_unannotated [⟨3, some 2⟩, ⟨4, none⟩] 2).2.2 ⟨3, some 2⟩
     (by norm_num) rfl⟩
